import Mathlib

set_option maxRecDepth 40000

/-!
Shallow embedding of the project-setup pipeline implemented in `app.py`
(`ProjectSetupApp`).  Pure string-building code is translated into Lean
functions keeping the source names; the stateful pipeline `run_setup` is
translated into a function from an explicit environment (reified outcomes
of the filesystem probe, the HTTP GET, and the external process calls) to
a run record listing the steps executed, the filesystem mutations
performed, the log lines emitted, and the error that aborted the run, if
any.  File and directory writes themselves are modelled as always
succeeding except the editor-settings write, whose outcome is part of the
environment because the claims under verification mention its failure.
-/

namespace ProjectSetup

/-! Helpers modelling the Python string primitives used by the source
(`str.strip`, `str.split()` with no argument, `str.join`, and the
substring test `in`).  They are defined over `List Char` so that every
proof can proceed by structural induction and every concrete instance can
be evaluated by `decide`. -/

/-- Model of Python `str.strip()` on the character list: drop whitespace
from the front, then from the back. -/
def stripChars (l : List Char) : List Char :=
  ((l.dropWhile Char.isWhitespace).reverse.dropWhile Char.isWhitespace).reverse

/-- Model of Python `str.strip()`. -/
def pyStrip (s : String) : String :=
  String.mk (stripChars s.data)

/-- Auxiliary for `pySplit`: walk the characters, accumulating the current
word (reversed); whitespace runs separate words and empty words are
dropped, as Python `str.split()` with no argument does. -/
def pySplitAux : List Char → List Char → List String
  | [], acc => if acc.isEmpty then [] else [String.mk acc.reverse]
  | c :: rest, acc =>
    if c.isWhitespace then
      if acc.isEmpty then pySplitAux rest []
      else String.mk acc.reverse :: pySplitAux rest []
    else pySplitAux rest (c :: acc)

/-- Model of Python `str.split()` with no argument. -/
def pySplit (s : String) : List String :=
  pySplitAux s.data []

/-- Model of Python `sep.join(parts)`. -/
def pyJoin (sep : String) : List String → String
  | [] => ""
  | [x] => x
  | x :: rest => x ++ sep ++ pyJoin sep rest

/-- Substring containment on character lists: does `pat` occur
contiguously in `s`?  Models the Python operator `pat in s`. -/
def containsSub : List Char → List Char → Bool
  | [], pat => pat.isEmpty
  | c :: rest, pat =>
    pat.isPrefixOf (c :: rest) || containsSub rest pat

/-- Model of the Python substring test `pat in s`. -/
def strContains (s pat : String) : Bool :=
  containsSub s.data pat.data

/-! Data model.  The combo box of the GUI offers exactly three project
types (indices 1, 2, 3 after the `+ 1` shift in `create_project`); they
are modelled as an enumeration. -/

/-- Project type selected in the GUI (`project_type` 1, 2 or 3). -/
inductive ProjectType
  | Basic
  | DataAnalytics
  | ApiService
  deriving DecidableEq

/-- The nine pipeline steps of `run_setup`, in execution order. -/
inductive Step
  | createDir
  | createVenv
  | downloadGitignore
  | initGit
  | ruffConfig
  | templateGen
  | vscodeConfig
  | installDeps
  | openEditor
  deriving DecidableEq

/-- A filesystem or repository mutation performed by the pipeline.  File
paths are relative to the project directory (the source calls `os.chdir`
into it right after creating it), except the project directory itself and
the virtual-environment directory, which the source addresses absolutely. -/
inductive Mutation
  | mkdir (path : String)
  | writeFile (path : String) (content : String)
  | venvCreate (path : String)
  | gitInit
  deriving DecidableEq

/-- Reified environment of one run: the outcome of the initial
`os.path.exists` probe, of the HTTP GET for the gitignore template, of the
external process invocations, and of the editor-settings write (the one
internal write whose failure the claims mention).  Error-message fields
carry the text of the exception raised by the corresponding Python call. -/
structure Env where
  dirExists : Bool
  isWindows : Bool
  httpStatus : Nat
  httpBody : String
  gitInitOk : Bool
  gitErrText : String
  vscodeWriteOk : Bool
  vscodeErrText : String
  pipOk : Bool
  pipErrText : String
  codeFound : Bool
  codeLaunchOk : Bool
  codeErrText : String
  deriving DecidableEq

/-- The observable outcome of one `run_setup` invocation. -/
structure RunResult where
  executed : List Step
  mutations : List Mutation
  log : List String
  errorMsg : Option String
  deriving DecidableEq

/-- Module constant `BASE_PATH`. -/
def BASE_PATH : String := "D:\\eora"

/-- Module constant `VSCODE_PATH`. -/
def VSCODE_PATH : String := "C:\\Program Files\\Microsoft VS Code\\Code.exe"

/-- Model of `os.path.join` for a relative second component: the host
path separator depends on the operating system. -/
def path_join (isWindows : Bool) (a b : String) : String :=
  a ++ (if isWindows then "\\" else "/") ++ b

/-- The project directory `os.path.join(BASE_PATH, self.project_name)`. -/
def project_dir (isWindows : Bool) (project_name : String) : String :=
  path_join isWindows BASE_PATH project_name

/-! File contents written by the pipeline, as literal strings translated
from `app.py`. -/

/-- Content of `ruff.toml` written by `create_ruff_config`. -/
def ruff_config : String :=
  "[tool.ruff]\nline-length = 88\nselect = [\"E\", \"F\", \"W\", \"B\", \"C\"]\nignore = []\n"

/-- `app/main.py` of the basic project (`main_py_content` in
`setup_basic_python_project`). -/
def basic_main_py_content : String := "print(\"Hello, World!\")\n"

/-- `tests/test_basic.py` of the basic project (`test_basic_content`). -/
def test_basic_content : String := "def test_true():\n    assert True\n"

/-- `notebooks/analysis.ipynb` of the data-analytics project: the
serialization `json.dump(notebook_content, f)` of the notebook dict. -/
def notebook_content_json : String :=
  "\x7b\"cells\": [\x7b\"cell_type\": \"code\", \"execution_count\": null, \"metadata\": \x7b\x7d, \"outputs\": [], \"source\": [\"print(\\\"Hello, World!\\\")\"]\x7d], \"metadata\": \x7b\x7d, \"nbformat\": 4, \"nbformat_minor\": 5\x7d"

/-- `tests/test_notebook.py` of the data-analytics project
(`test_notebook_content`). -/
def test_notebook_content : String := "def test_true():\n    assert True\n"

/-- `app/main.py` of the FastAPI project (`main_py_content` in
`setup_fastapi_project`). -/
def fastapi_main_py_content : String :=
  "from fastapi import FastAPI\n\napp = FastAPI()\n\n@app.get(\"/\")\nasync def read_root():\n    return \x7b\"Hello\": \"World\"\x7d\n"

/-- `tests/test_app.py` of the FastAPI project (`test_app_content`). -/
def test_app_content : String :=
  "import pytest\nfrom httpx import AsyncClient\nfrom app.main import app\n\n@pytest.mark.asyncio\nasync def test_read_root():\n    async with AsyncClient(app=app, base_url=\"http://test\") as ac:\n        response = await ac.get(\"/\")\n    assert response.status_code == 200\n    assert response.json() == \x7b\"Hello\": \"World\"\x7d\n"

/-- Content of `README.md` built by `create_readme`: the heading, run
instructions, test instructions, and Docker instructions whose run line is
chosen by scanning `run_command` for the substrings `uvicorn` and
`jupyter`. -/
def create_readme (project_name run_command : String) : String :=
  let readme_base : String :=
    "# " ++ project_name ++ "\n\n" ++
    "## How to Run\n" ++ "\n" ++
    run_command ++ "\n" ++ "\n" ++
    "## How to Run Tests\n" ++ "\n" ++
    "pytest\n" ++ "\n" ++
    "## Docker Usage\n" ++ "### Build Docker Image\n" ++ "\n" ++
    "docker build -t " ++ project_name ++ " .\n" ++ "\n" ++
    "### Run Docker Container\n" ++ "\n"
  let with_docker_run : String :=
    if strContains run_command "uvicorn" then
      readme_base ++ "docker run -p 8000:8000 " ++ project_name ++ "\n"
    else if strContains run_command "jupyter" then
      readme_base ++ "docker run -p 8888:8888 " ++ project_name ++ "\n"
    else
      readme_base ++ "docker run --rm " ++ project_name ++ "\n"
  with_docker_run ++ "\n" ++ "## Docker Compose Usage\n" ++ "\n" ++ "docker-compose up --build\n" ++ "\n"

/-- Python `repr`-free rendering of an optional command in an f-string:
`None` prints as the literal `None`. -/
def pyShowOpt : Option String → String
  | none => "None"
  | some s => s

/-- The `CMD` line of the Dockerfile for a non-data project: the command
split on whitespace and rendered as a JSON-style argument list; a missing
or empty command falls back to running `app/main.py` (the Python test is
`if command:`, so the empty string takes the fallback too). -/
def dockerfile_cmd_line : Option String → String
  | some cmd =>
    if cmd = "" then "CMD [\"python\", \"app/main.py\"]\n"
    else "CMD [" ++ pyJoin ", " ((pySplit cmd).map (fun arg => "\"" ++ arg ++ "\"")) ++ "]\n"
  | none => "CMD [\"python\", \"app/main.py\"]\n"

/-- The `Dockerfile` and `docker-compose.yml` writes performed by
`create_docker_files`, in source order. -/
def create_docker_files (command : Option String) (is_data_project is_fastapi : Bool) :
    List Mutation :=
  if is_data_project then
    [Mutation.writeFile "Dockerfile"
      ("FROM jupyter/base-notebook:python-3.11.6\nCOPY notebooks/ /home/jovyan/work/\n"),
     Mutation.writeFile "docker-compose.yml"
      ("services:\n  jupyter:\n    build: .\n    ports:\n      - \"8888:8888\"\n    volumes:\n      - ./notebooks:/home/jovyan/work\n")]
  else
    [Mutation.writeFile "Dockerfile"
      ("FROM python:3.9-slim\nWORKDIR /app\nCOPY requirements.txt .\nRUN pip install --no-cache-dir -r requirements.txt\nCOPY . .\n"
        ++ dockerfile_cmd_line command),
     Mutation.writeFile "docker-compose.yml"
      ("services:\n  app:\n    build: .\n"
        ++ (if is_fastapi then "    ports:\n      - \"8000:8000\"\n" else "")
        ++ "    command: " ++ pyShowOpt command ++ "\n")]

/-- Content of `requirements.txt` built by `create_requirements`. -/
def create_requirements (packages : List String) : String :=
  pyJoin "\n" packages ++ "\n"

/-- Mutations of `setup_basic_python_project`, in source order. -/
def setup_basic_python_project (project_name : String) : List Mutation :=
  [Mutation.mkdir "app", Mutation.mkdir "tests",
   Mutation.writeFile "app/main.py" basic_main_py_content,
   Mutation.writeFile "tests/test_basic.py" test_basic_content,
   Mutation.writeFile "README.md" (create_readme project_name "python app/main.py")]
  ++ create_docker_files (some "python app/main.py") false false
  ++ [Mutation.writeFile "requirements.txt"
       (create_requirements
         ["pytest", "pytest-cov", "pytest-mock", "pytest-xdist", "pytest-asyncio", "pytest-profiling"])]

/-- Mutations of `setup_data_analytics_project`, in source order. -/
def setup_data_analytics_project (project_name : String) : List Mutation :=
  [Mutation.mkdir "notebooks", Mutation.mkdir "tests",
   Mutation.writeFile "notebooks/analysis.ipynb" notebook_content_json,
   Mutation.writeFile "tests/test_notebook.py" test_notebook_content,
   Mutation.writeFile "README.md" (create_readme project_name "jupyter notebook notebooks/analysis.ipynb")]
  ++ create_docker_files none true false
  ++ [Mutation.writeFile "requirements.txt"
       (create_requirements
         ["jupyter", "pytest", "pytest-cov", "pytest-mock", "pytest-xdist", "pytest-asyncio", "pytest-profiling"])]

/-- Mutations of `setup_fastapi_project`, in source order. -/
def setup_fastapi_project (project_name : String) : List Mutation :=
  [Mutation.mkdir "app", Mutation.mkdir "tests",
   Mutation.writeFile "app/main.py" fastapi_main_py_content,
   Mutation.writeFile "tests/test_app.py" test_app_content,
   Mutation.writeFile "README.md" (create_readme project_name "uvicorn app.main:app --reload")]
  ++ create_docker_files (some "uvicorn app.main:app --host 0.0.0.0 --port 8000") false true
  ++ [Mutation.writeFile "requirements.txt"
       (create_requirements
         ["fastapi", "uvicorn", "pytest", "pytest-cov", "pytest-mock", "pytest-xdist",
          "pytest-asyncio", "pytest-profiling", "httpx"])]

/-- Dispatch on the project type, as in `run_setup`. -/
def template_mutations : ProjectType → String → List Mutation
  | ProjectType.Basic, name => setup_basic_python_project name
  | ProjectType.DataAnalytics, name => setup_data_analytics_project name
  | ProjectType.ApiService, name => setup_fastapi_project name

/-- Success log line emitted at the end of each template setup method. -/
def template_success_msg : ProjectType → String
  | ProjectType.Basic => "SUCCESS: Basic Python project set up."
  | ProjectType.DataAnalytics => "SUCCESS: Data analytics project set up."
  | ProjectType.ApiService => "SUCCESS: FastAPI project set up."

/-- Content of `.vscode/settings.json`: the serialization
`json.dump(settings, f, indent=4)` of the settings dict, whose interpreter
and linter paths depend on the host operating system. -/
def vscode_settings (isWindows : Bool) : String :=
  if isWindows then
    "\x7b\n    \"python.pythonPath\": \".venv\\\\Scripts\\\\python.exe\",\n    \"editor.formatOnSave\": true,\n    \"python.linting.enabled\": true,\n    \"python.linting.ruffEnabled\": true,\n    \"python.linting.ruffPath\": \".venv\\\\Scripts\\\\ruff.exe\",\n    \"python.testing.pytestEnabled\": true,\n    \"python.testing.pytestArgs\": [\n        \"tests\"\n    ]\n\x7d"
  else
    "\x7b\n    \"python.pythonPath\": \".venv/bin/python\",\n    \"editor.formatOnSave\": true,\n    \"python.linting.enabled\": true,\n    \"python.linting.ruffEnabled\": true,\n    \"python.linting.ruffPath\": \".venv/bin/ruff\",\n    \"python.testing.pytestEnabled\": true,\n    \"python.testing.pytestArgs\": [\n        \"tests\"\n    ]\n\x7d"

/-- The `FileExistsError` text raised by `run_setup` when the project
directory already exists. -/
def dir_exists_msg (isWindows : Bool) (project_name : String) : String :=
  "ERROR: Project directory \"" ++ project_dir isWindows project_name ++ "\" already exists."

/-- The exception text raised by `download_gitignore` on a non-200 status. -/
def gitignore_fail_msg : String := "ERROR: Failed to download .gitignore file."

/-- Model of `ProjectSetupApp.run_setup`: the fixed sequence of nine
steps.  Each abort point returns the steps executed so far, the mutations
performed so far, the log emitted so far plus the top-level handler line
`ERROR: ...` wrapping the raised exception text, and that exception text
as `errorMsg`.  A completed run has `errorMsg = none`. -/
def run_setup (project_name : String) (ptype : ProjectType) (env : Env) : RunResult :=
  let pdir := project_dir env.isWindows project_name
  if env.dirExists then
    { executed := [], mutations := [],
      log := ["ERROR: " ++ dir_exists_msg env.isWindows project_name],
      errorMsg := some (dir_exists_msg env.isWindows project_name) }
  else
    let ex1 := [Step.createDir]
    let mu1 := [Mutation.mkdir pdir]
    let lg1 := ["SUCCESS: Created project directory \"" ++ pdir ++ "\"."]
    let ex2 := ex1 ++ [Step.createVenv]
    let mu2 := mu1 ++ [Mutation.venvCreate (path_join env.isWindows pdir ".venv")]
    let lg2 := lg1 ++ ["SUCCESS: Virtual environment created."]
    let ex3 := ex2 ++ [Step.downloadGitignore]
    if env.httpStatus = 200 then
      let mu3 := mu2 ++ [Mutation.writeFile ".gitignore" env.httpBody]
      let lg3 := lg2 ++ ["SUCCESS: .gitignore file downloaded."]
      let ex4 := ex3 ++ [Step.initGit]
      if env.gitInitOk then
        let mu4 := mu3 ++ [Mutation.gitInit]
        let lg4 := lg3 ++ ["SUCCESS: Git repository initialized."]
        let ex5 := ex4 ++ [Step.ruffConfig]
        let mu5 := mu4 ++ [Mutation.writeFile "ruff.toml" ruff_config]
        let lg5 := lg4 ++ ["SUCCESS: ruff.toml file created."]
        let ex6 := ex5 ++ [Step.templateGen]
        let mu6 := mu5 ++ template_mutations ptype project_name
        let lg6 := lg5 ++ [template_success_msg ptype]
        let ex7 := ex6 ++ [Step.vscodeConfig]
        if env.vscodeWriteOk then
          let mu7 := mu6 ++ [Mutation.mkdir ".vscode",
            Mutation.writeFile ".vscode/settings.json" (vscode_settings env.isWindows)]
          let lg7 := lg6 ++ ["SUCCESS: VS Code settings configured."]
          let ex8 := ex7 ++ [Step.installDeps]
          let lg8 := lg7 ++ ["INFO: Installing dependencies..."]
            ++ (if env.pipOk then ["SUCCESS: Dependencies installed."]
                else ["ERROR: Failed to install dependencies: " ++ env.pipErrText])
          let ex9 := ex8 ++ [Step.openEditor]
          let lg9 := lg8
            ++ (if env.codeFound then
                  (if env.codeLaunchOk then ["SUCCESS: Project opened in VS Code."]
                   else ["ERROR: Failed to open VS Code: " ++ env.codeErrText])
                else ["ERROR: Could not find VS Code. Ensure that the path is correct."])
          { executed := ex9, mutations := mu7, log := lg9, errorMsg := none }
        else
          { executed := ex7, mutations := mu6 ++ [Mutation.mkdir ".vscode"],
            log := lg6 ++ ["ERROR: " ++ env.vscodeErrText],
            errorMsg := some env.vscodeErrText }
      else
        { executed := ex4, mutations := mu3,
          log := lg3 ++ ["ERROR: " ++ env.gitErrText],
          errorMsg := some env.gitErrText }
    else
      { executed := ex3, mutations := mu2,
        log := lg2 ++ ["ERROR: " ++ gitignore_fail_msg],
        errorMsg := some gitignore_fail_msg }

/-- Model of `ProjectSetupApp.create_project`: strip the submitted name;
an empty result shows a warning dialog and does not start the pipeline
(`none`); otherwise the pipeline runs on the stripped name. -/
def create_project (input_name : String) (ptype : ProjectType) (env : Env) :
    Option RunResult :=
  if pyStrip input_name = "" then none
  else some (run_setup (pyStrip input_name) ptype env)

/-- The files written by a list of mutations, as path-content pairs. -/
def writtenFiles (ms : List Mutation) : List (String × String) :=
  ms.filterMap fun m =>
    match m with
    | Mutation.writeFile p c => some (p, c)
    | _ => none

/-- Content of the first write to `path` among the mutations. -/
def fileContent (ms : List Mutation) (path : String) : Option String :=
  (writtenFiles ms).lookup path

/-- The dependency list passed to `create_requirements` by each template
setup method. -/
def dependencyList : ProjectType → List String
  | ProjectType.Basic =>
    ["pytest", "pytest-cov", "pytest-mock", "pytest-xdist", "pytest-asyncio", "pytest-profiling"]
  | ProjectType.DataAnalytics =>
    ["jupyter", "pytest", "pytest-cov", "pytest-mock", "pytest-xdist", "pytest-asyncio", "pytest-profiling"]
  | ProjectType.ApiService =>
    ["fastapi", "uvicorn", "pytest", "pytest-cov", "pytest-mock", "pytest-xdist",
     "pytest-asyncio", "pytest-profiling", "httpx"]

/-- The run command placed in the README by each template setup method. -/
def readme_run_command : ProjectType → String
  | ProjectType.Basic => "python app/main.py"
  | ProjectType.DataAnalytics => "jupyter notebook notebooks/analysis.ipynb"
  | ProjectType.ApiService => "uvicorn app.main:app --reload"

/-- The six test packages shared by all three dependency lists. -/
def sixTestPackages : List String :=
  ["pytest", "pytest-cov", "pytest-mock", "pytest-xdist", "pytest-asyncio", "pytest-profiling"]

/-- An environment in which every probe and external call succeeds. -/
def happyEnv : Env :=
  { dirExists := false, isWindows := false, httpStatus := 200,
    httpBody := "__pycache__/\n*.py[cod]\n", gitInitOk := true, gitErrText := "",
    vscodeWriteOk := true, vscodeErrText := "", pipOk := true, pipErrText := "",
    codeFound := true, codeLaunchOk := true, codeErrText := "" }

/-! Helper lemmas about the Python string primitives. -/

/-- The head surviving a `dropWhile` does not satisfy the predicate. -/
theorem dropWhile_head_false (p : Char → Bool) :
    ∀ (l : List Char) (a : Char) (t : List Char), l.dropWhile p = a :: t → p a = false := by
  intro l
  induction l with
  | nil => intro a t h; simp [List.dropWhile] at h
  | cons b l ih =>
    intro a t h
    by_cases hb : p b
    · rw [List.dropWhile_cons, if_pos hb] at h
      exact ih a t h
    · rw [List.dropWhile_cons, if_neg hb] at h
      cases h
      simp only [Bool.not_eq_true] at hb
      exact hb

/-- Dropping twice is the same as dropping once. -/
theorem dropWhile_idem (p : Char → Bool) (l : List Char) :
    (l.dropWhile p).dropWhile p = l.dropWhile p := by
  induction l with
  | nil => rfl
  | cons a t ih =>
    by_cases h : p a
    · simp [List.dropWhile_cons, h, ih]
    · simp [List.dropWhile_cons, h]

/-- If a list is already trimmed at the front, trimming it at the back
leaves its front trimmed as well. -/
theorem dropWhile_of_trimmed (p : Char → Bool) (A : List Char)
    (hA : A.dropWhile p = A) :
    ((A.reverse.dropWhile p).reverse).dropWhile p = (A.reverse.dropWhile p).reverse := by
  cases hS : (A.reverse.dropWhile p).reverse with
  | nil => simp
  | cons a t =>
    have hArev : A.reverse.takeWhile p ++ A.reverse.dropWhile p = A.reverse :=
      List.takeWhile_append_dropWhile p A.reverse
    have hAeq : (A.reverse.dropWhile p).reverse ++ (A.reverse.takeWhile p).reverse = A := by
      have := congrArg List.reverse hArev
      rwa [List.reverse_append, List.reverse_reverse] at this
    have hAcons : A = a :: (t ++ (A.reverse.takeWhile p).reverse) := by
      conv_lhs => rw [← hAeq, hS, List.cons_append]
    have hpa : p a = false :=
      dropWhile_head_false p A a _ (by rw [hA, hAcons])
    rw [List.dropWhile_cons, hpa]
    simp

/-- `stripChars` is idempotent. -/
theorem stripChars_idem (l : List Char) : stripChars (stripChars l) = stripChars l := by
  unfold stripChars
  rw [dropWhile_of_trimmed Char.isWhitespace (l.dropWhile Char.isWhitespace)
    (dropWhile_idem Char.isWhitespace l)]
  rw [List.reverse_reverse, dropWhile_idem]

/-- `pyStrip` is idempotent, as Python `str.strip` is. -/
theorem pyStrip_idem (s : String) : pyStrip (pyStrip s) = pyStrip s := by
  unfold pyStrip
  rw [show (String.mk (stripChars s.data)).data = stripChars s.data from rfl, stripChars_idem]

/-- Stripping a whitespace-only character list leaves nothing. -/
theorem stripChars_eq_nil_of_all (l : List Char)
    (h : l.all Char.isWhitespace = true) : stripChars l = [] := by
  unfold stripChars
  have hd : l.dropWhile Char.isWhitespace = [] := by
    rw [List.dropWhile_eq_nil_iff]
    intro x hx
    exact List.all_eq_true.mp h x hx
  rw [hd]
  rfl

/-- `String.data` distributes over append. -/
theorem string_data_append (a b : String) : (a ++ b).data = a.data ++ b.data := rfl

/-- Every list has the empty pattern as a substring. -/
theorem containsSub_nil_pat (t : List Char) : containsSub t [] = true := by
  cases t with
  | nil => rfl
  | cons a t => simp [containsSub, List.isPrefixOf]

/-- A list is a prefix of itself extended on the right. -/
theorem isPrefixOf_refl_append (p t : List Char) : p.isPrefixOf (p ++ t) = true := by
  induction p with
  | nil => simp [List.isPrefixOf]
  | cons a p ih => simp [List.isPrefixOf, ih]

/-- A pattern occurs in any list that starts with it. -/
theorem containsSub_self_append (p t : List Char) : containsSub (p ++ t) p = true := by
  cases p with
  | nil => exact containsSub_nil_pat t
  | cons a ps =>
    rw [List.cons_append, containsSub]
    rw [show a :: (ps ++ t) = (a :: ps) ++ t from rfl, isPrefixOf_refl_append]
    rfl

/-- Occurrence is preserved by extending the list on the left. -/
theorem containsSub_append_right (s t p : List Char) (h : containsSub t p = true) :
    containsSub (s ++ t) p = true := by
  induction s with
  | nil => simpa using h
  | cons a s ih =>
    rw [List.cons_append, containsSub, ih, Bool.or_true]

/-! Claim theorems. -/

/-- Claim C1: for the request with name `demo` and type `Basic`, run
against a base directory in which `demo` does not exist (and every
external call succeeding), the pipeline writes `app/main.py` with content
exactly the hello-world line, `tests/test_basic.py` with the trivial
always-true test, `README.md` whose How to Run section contains the
literal command `python app/main.py`, and `requirements.txt` consisting of
exactly the six pytest packages, one per line, in the stated order. -/
theorem c1_basic_demo_artifacts :
    happyEnv.dirExists = false
  ∧ fileContent (run_setup "demo" ProjectType.Basic happyEnv).mutations "app/main.py"
      = some "print(\"Hello, World!\")\n"
  ∧ fileContent (run_setup "demo" ProjectType.Basic happyEnv).mutations "tests/test_basic.py"
      = some "def test_true():\n    assert True\n"
  ∧ (fileContent (run_setup "demo" ProjectType.Basic happyEnv).mutations "README.md").map
      (fun r => strContains r "## How to Run\n\npython app/main.py\n") = some true
  ∧ fileContent (run_setup "demo" ProjectType.Basic happyEnv).mutations "requirements.txt"
      = some "pytest\npytest-cov\npytest-mock\npytest-xdist\npytest-asyncio\npytest-profiling\n" := by
  decide

/-- Claim C7: for every project type the generated `requirements.txt` is
exactly the fixed dependency list of that type joined one name per line
and terminated by a final newline, in order: the six pytest packages for
`Basic`, `jupyter` plus those six for `DataAnalytics`, and the
web-framework (`fastapi`, `uvicorn`), the six, and the HTTP client
(`httpx`) for `ApiService`. -/
theorem c7_requirements_content (name : String) :
    fileContent (template_mutations ProjectType.Basic name) "requirements.txt"
      = some "pytest\npytest-cov\npytest-mock\npytest-xdist\npytest-asyncio\npytest-profiling\n"
  ∧ fileContent (template_mutations ProjectType.DataAnalytics name) "requirements.txt"
      = some "jupyter\npytest\npytest-cov\npytest-mock\npytest-xdist\npytest-asyncio\npytest-profiling\n"
  ∧ fileContent (template_mutations ProjectType.ApiService name) "requirements.txt"
      = some "fastapi\nuvicorn\npytest\npytest-cov\npytest-mock\npytest-xdist\npytest-asyncio\npytest-profiling\nhttpx\n" := by
  exact ⟨rfl, rfl, rfl⟩

/-- Claim C9: the six test packages appear in every dependency list as a
contiguous block in the same relative order: the `Basic` list is exactly
that block, `DataAnalytics` prepends `jupyter`, and `ApiService` prepends
`fastapi` and `uvicorn` and appends `httpx`; the generated
`requirements.txt` of each type renders exactly its list. -/
theorem c9_test_packages_block :
    (∀ (t : ProjectType) (name : String),
        fileContent (template_mutations t name) "requirements.txt"
          = some (create_requirements (dependencyList t)))
  ∧ (∀ t : ProjectType, sixTestPackages <:+: dependencyList t)
  ∧ dependencyList ProjectType.Basic = sixTestPackages
  ∧ dependencyList ProjectType.DataAnalytics = "jupyter" :: sixTestPackages
  ∧ dependencyList ProjectType.ApiService
      = ["fastapi", "uvicorn"] ++ sixTestPackages ++ ["httpx"] := by
  refine ⟨fun t name => ?_, fun t => ?_, rfl, rfl, rfl⟩
  · cases t <;> rfl
  · cases t <;> decide

/-- An environment in which only the editor-settings write fails. -/
def vscodeFailEnv : Env :=
  { happyEnv with vscodeWriteOk := false, vscodeErrText := "Permission denied" }

/-- An environment in which the gitignore GET returns status 404. -/
def fetch404Env : Env :=
  { happyEnv with httpStatus := 404 }

/-- An environment in which the project directory already exists. -/
def dirExistsEnv : Env :=
  { happyEnv with dirExists := true }

/-- An environment in which only the dependency install exits non-zero. -/
def pipFailEnv : Env :=
  { happyEnv with pipOk := false, pipErrText := "Command returned non-zero exit status 1." }

/-- Claim C2, as stated, is false on the code: `run_setup` calls
`setup_vscode` with no local handler, so an error raised while writing the
editor configuration propagates to the top-level handler and the
Dependency Installer and Editor Launcher never execute.  Concretely: in a
run whose editor-settings write fails, the Dependency Installer step is
absent from the executed steps. -/
theorem c2_counterexample :
    vscodeFailEnv.vscodeWriteOk = false
  ∧ Step.vscodeConfig ∈ (run_setup "demo" ProjectType.Basic vscodeFailEnv).executed
  ∧ (run_setup "demo" ProjectType.Basic vscodeFailEnv).errorMsg = some "Permission denied"
  ∧ Step.installDeps ∉ (run_setup "demo" ProjectType.Basic vscodeFailEnv).executed
  ∧ Step.openEditor ∉ (run_setup "demo" ProjectType.Basic vscodeFailEnv).executed := by
  decide

/-- Claim C2, amended: an error raised while writing the editor
configuration is NOT caught locally; it propagates to the top-level
handler, which logs it as an ERROR line and aborts the run, so for every
run in which the editor-settings write fails the Dependency Installer and
Editor Launcher steps do not execute. -/
theorem c2_amended_vscode_error_aborts (name : String) (t : ProjectType) (env : Env)
    (h1 : env.dirExists = false) (h2 : env.httpStatus = 200) (h3 : env.gitInitOk = true)
    (h4 : env.vscodeWriteOk = false) :
    (run_setup name t env).errorMsg = some env.vscodeErrText
  ∧ ("ERROR: " ++ env.vscodeErrText) ∈ (run_setup name t env).log
  ∧ Step.vscodeConfig ∈ (run_setup name t env).executed
  ∧ Step.installDeps ∉ (run_setup name t env).executed
  ∧ Step.openEditor ∉ (run_setup name t env).executed := by
  simp [run_setup, h1, h2, h3, h4]

/-- Witness for the amended claim C2 at a concrete run. -/
theorem c2_amended_vscode_error_aborts_witness :
    (run_setup "demo" ProjectType.Basic vscodeFailEnv).errorMsg
      = some vscodeFailEnv.vscodeErrText
  ∧ ("ERROR: " ++ vscodeFailEnv.vscodeErrText) ∈ (run_setup "demo" ProjectType.Basic vscodeFailEnv).log
  ∧ Step.vscodeConfig ∈ (run_setup "demo" ProjectType.Basic vscodeFailEnv).executed
  ∧ Step.installDeps ∉ (run_setup "demo" ProjectType.Basic vscodeFailEnv).executed
  ∧ Step.openEditor ∉ (run_setup "demo" ProjectType.Basic vscodeFailEnv).executed :=
  c2_amended_vscode_error_aborts "demo" ProjectType.Basic vscodeFailEnv rfl rfl rfl rfl

/-- Claim C3: when the gitignore GET returns 200 the response body is
written verbatim to `.gitignore`; for any non-200 status the step raises
and the pipeline aborts after the download step, so neither the VCS init
nor any later step executes. -/
theorem c3_asset_fetcher (name : String) (t : ProjectType) (env : Env)
    (h1 : env.dirExists = false) :
    (env.httpStatus = 200 →
        Mutation.writeFile ".gitignore" env.httpBody ∈ (run_setup name t env).mutations)
  ∧ (env.httpStatus ≠ 200 →
        (run_setup name t env).errorMsg = some gitignore_fail_msg
      ∧ (run_setup name t env).executed
          = [Step.createDir, Step.createVenv, Step.downloadGitignore]
      ∧ Step.initGit ∉ (run_setup name t env).executed
      ∧ Step.ruffConfig ∉ (run_setup name t env).executed
      ∧ Step.templateGen ∉ (run_setup name t env).executed
      ∧ Step.vscodeConfig ∉ (run_setup name t env).executed
      ∧ Step.installDeps ∉ (run_setup name t env).executed
      ∧ Step.openEditor ∉ (run_setup name t env).executed) := by
  constructor
  · intro h2
    by_cases hg : env.gitInitOk <;> by_cases hv : env.vscodeWriteOk <;>
      simp [run_setup, h1, h2, hg, hv]
  · intro h2
    simp [run_setup, h1, h2]

/-- Witness for claim C3: a 200 run writes the body, a 404 run stops at
the download step. -/
theorem c3_asset_fetcher_witness :
    Mutation.writeFile ".gitignore" happyEnv.httpBody
      ∈ (run_setup "demo" ProjectType.Basic happyEnv).mutations
  ∧ (run_setup "demo" ProjectType.Basic fetch404Env).executed
      = [Step.createDir, Step.createVenv, Step.downloadGitignore] :=
  ⟨(c3_asset_fetcher "demo" ProjectType.Basic happyEnv rfl).1 rfl,
   ((c3_asset_fetcher "demo" ProjectType.Basic fetch404Env rfl).2 (by decide)).2.1⟩

/-- Claim C4: Docker port mapping follows the project type.  For
`DataAnalytics` the compose file contains the `8888:8888` ports entry and
the README docker-run line uses `-p 8888:8888`; for `ApiService` the
compose file contains `8000:8000` and the README uses `-p 8000:8000`; for
`Basic` the compose file has no ports section and the README docker-run
line carries no `-p` flag.  The README choice is made by scanning the run
command for the marker substrings `uvicorn` and `jupyter`: any command
containing `uvicorn` yields the 8000 line, any command containing
`jupyter` but not `uvicorn` yields the 8888 line, and any other command
yields the flagless `--rm` line. -/
theorem c4_docker_port_mapping :
    ((fileContent (template_mutations ProjectType.DataAnalytics "demo") "docker-compose.yml").map
        (fun c => strContains c "\"8888:8888\"") = some true)
  ∧ ((fileContent (template_mutations ProjectType.DataAnalytics "demo") "README.md").map
        (fun r => strContains r "docker run -p 8888:8888 ") = some true)
  ∧ ((fileContent (template_mutations ProjectType.ApiService "demo") "docker-compose.yml").map
        (fun c => strContains c "\"8000:8000\"") = some true)
  ∧ ((fileContent (template_mutations ProjectType.ApiService "demo") "README.md").map
        (fun r => strContains r "docker run -p 8000:8000 ") = some true)
  ∧ ((fileContent (template_mutations ProjectType.Basic "demo") "docker-compose.yml").map
        (fun c => strContains c "ports") = some false)
  ∧ ((fileContent (template_mutations ProjectType.Basic "demo") "README.md").map
        (fun r => strContains r " -p ") = some false)
  ∧ (∀ run_command : String, strContains run_command "uvicorn" = true →
        strContains (create_readme "demo" run_command) "docker run -p 8000:8000 " = true)
  ∧ (∀ run_command : String, strContains run_command "uvicorn" = false →
        strContains run_command "jupyter" = true →
        strContains (create_readme "demo" run_command) "docker run -p 8888:8888 " = true)
  ∧ (∀ run_command : String, strContains run_command "uvicorn" = false →
        strContains run_command "jupyter" = false →
        strContains (create_readme "demo" run_command) "docker run --rm " = true) := by
  refine ⟨by decide, by decide, by decide, by decide, by decide, by decide,
    fun run_command h => ?_, fun run_command h1 h2 => ?_, fun run_command h1 h2 => ?_⟩
  · unfold create_readme
    simp only [h, if_true]
    unfold strContains
    simp only [string_data_append, List.append_assoc]
    repeat
      first
      | exact containsSub_self_append _ _
      | apply containsSub_append_right
  · have h1n : ¬ (strContains run_command "uvicorn" = true) := by simp [h1]
    unfold create_readme
    simp only [if_neg h1n, if_pos h2]
    unfold strContains
    simp only [string_data_append, List.append_assoc]
    repeat
      first
      | exact containsSub_self_append _ _
      | apply containsSub_append_right
  · have h1n : ¬ (strContains run_command "uvicorn" = true) := by simp [h1]
    have h2n : ¬ (strContains run_command "jupyter" = true) := by simp [h2]
    unfold create_readme
    simp only [if_neg h1n, if_neg h2n]
    unfold strContains
    simp only [string_data_append, List.append_assoc]
    repeat
      first
      | exact containsSub_self_append _ _
      | apply containsSub_append_right

/-- Witness for claim C4: the marker scan instantiated at the three run
commands actually used by the template generator. -/
theorem c4_docker_port_mapping_witness :
    strContains (create_readme "demo" "uvicorn app.main:app --reload")
      "docker run -p 8000:8000 " = true
  ∧ strContains (create_readme "demo" "jupyter notebook notebooks/analysis.ipynb")
      "docker run -p 8888:8888 " = true
  ∧ strContains (create_readme "demo" "python app/main.py")
      "docker run --rm " = true :=
  ⟨c4_docker_port_mapping.2.2.2.2.2.2.1 "uvicorn app.main:app --reload" (by decide),
   c4_docker_port_mapping.2.2.2.2.2.2.2.1 "jupyter notebook notebooks/analysis.ipynb"
     (by decide) (by decide),
   c4_docker_port_mapping.2.2.2.2.2.2.2.2 "python app/main.py" (by decide) (by decide)⟩

/-- Claim C5: a whitespace-only (or empty) submitted name never starts the
pipeline, so no filesystem mutation occurs; and when the target directory
already exists the run aborts with the directory-exists error before any
mutation. -/
theorem c5_validator_atomicity :
    (∀ (input : String) (t : ProjectType) (env : Env),
        input.data.all Char.isWhitespace = true →
        create_project input t env = none)
  ∧ (∀ (name : String) (t : ProjectType) (env : Env),
        env.dirExists = true →
        (run_setup name t env).mutations = []
        ∧ (run_setup name t env).executed = []
        ∧ (run_setup name t env).errorMsg = some (dir_exists_msg env.isWindows name)) := by
  constructor
  · intro input t env h
    have hs : pyStrip input = "" := by
      unfold pyStrip
      rw [stripChars_eq_nil_of_all input.data h]
    simp [create_project, hs]
  · intro name t env h
    simp [run_setup, h]

/-- Witness for claim C5 at concrete inputs. -/
theorem c5_validator_atomicity_witness :
    create_project "   " ProjectType.Basic happyEnv = none
  ∧ (run_setup "demo" ProjectType.Basic dirExistsEnv).mutations = []
  ∧ (run_setup "demo" ProjectType.Basic dirExistsEnv).errorMsg
      = some (dir_exists_msg dirExistsEnv.isWindows "demo") :=
  ⟨c5_validator_atomicity.1 "   " ProjectType.Basic happyEnv (by decide),
   (c5_validator_atomicity.2 "demo" ProjectType.Basic dirExistsEnv rfl).1,
   (c5_validator_atomicity.2 "demo" ProjectType.Basic dirExistsEnv rfl).2.2⟩

/-- Claim C6: a non-zero exit of the dependency install is caught and
logged as an ERROR line, the Editor Launcher step still executes, and the
run reaches the completed terminal state (`errorMsg = none`). -/
theorem c6_installer_nonfatal (name : String) (t : ProjectType) (env : Env)
    (h1 : env.dirExists = false) (h2 : env.httpStatus = 200) (h3 : env.gitInitOk = true)
    (h4 : env.vscodeWriteOk = true) (h5 : env.pipOk = false) :
    ("ERROR: Failed to install dependencies: " ++ env.pipErrText) ∈ (run_setup name t env).log
  ∧ Step.installDeps ∈ (run_setup name t env).executed
  ∧ Step.openEditor ∈ (run_setup name t env).executed
  ∧ (run_setup name t env).errorMsg = none := by
  simp [run_setup, h1, h2, h3, h4, h5]

/-- Witness for claim C6 at a concrete run with a failing install. -/
theorem c6_installer_nonfatal_witness :
    ("ERROR: Failed to install dependencies: " ++ pipFailEnv.pipErrText)
      ∈ (run_setup "demo" ProjectType.Basic pipFailEnv).log
  ∧ Step.installDeps ∈ (run_setup "demo" ProjectType.Basic pipFailEnv).executed
  ∧ Step.openEditor ∈ (run_setup "demo" ProjectType.Basic pipFailEnv).executed
  ∧ (run_setup "demo" ProjectType.Basic pipFailEnv).errorMsg = none :=
  c6_installer_nonfatal "demo" ProjectType.Basic pipFailEnv rfl rfl rfl rfl rfl

/-- Claim C8: README generation is deterministic; for a fixed project name
and project type the README content written by the pipeline is the fixed
function `create_readme` of the name and the run command of that type, so
it is byte-identical across runs, whatever the rest of the environment. -/
theorem c8_readme_deterministic (name : String) (t : ProjectType) (e1 e2 : Env)
    (h1 : e1.dirExists = false) (h2 : e1.httpStatus = 200) (h3 : e1.gitInitOk = true)
    (h4 : e2.dirExists = false) (h5 : e2.httpStatus = 200) (h6 : e2.gitInitOk = true) :
    fileContent (run_setup name t e1).mutations "README.md"
      = some (create_readme name (readme_run_command t))
  ∧ fileContent (run_setup name t e1).mutations "README.md"
      = fileContent (run_setup name t e2).mutations "README.md" := by
  have key : ∀ (e : Env), e.dirExists = false → e.httpStatus = 200 → e.gitInitOk = true →
      fileContent (run_setup name t e).mutations "README.md"
        = some (create_readme name (readme_run_command t)) := by
    intro e he hh hg
    by_cases hv : e.vscodeWriteOk <;> cases t <;>
      simp [run_setup, he, hh, hg, hv, fileContent, writtenFiles, template_mutations,
        setup_basic_python_project, setup_data_analytics_project, setup_fastapi_project,
        create_docker_files, readme_run_command, List.lookup]
  exact ⟨key e1 h1 h2 h3, (key e1 h1 h2 h3).trans (key e2 h4 h5 h6).symm⟩

/-- Witness for claim C8: two concrete runs differing in the environment
produce the same README bytes. -/
theorem c8_readme_deterministic_witness :
    fileContent (run_setup "demo" ProjectType.Basic happyEnv).mutations "README.md"
      = some (create_readme "demo" (readme_run_command ProjectType.Basic))
  ∧ fileContent (run_setup "demo" ProjectType.Basic happyEnv).mutations "README.md"
      = fileContent (run_setup "demo" ProjectType.Basic vscodeFailEnv).mutations "README.md" :=
  c8_readme_deterministic "demo" ProjectType.Basic happyEnv vscodeFailEnv rfl rfl rfl rfl rfl rfl

/-- Claim C10: the submitted project name is stripped before any use, so
the pipeline on any input behaves identically to the pipeline on the
stripped input; concretely, the run on a padded name creates the project
directory, the README heading, and the docker image tag from the stripped
name. -/
theorem c10_name_stripped :
    (∀ (input : String) (t : ProjectType) (env : Env),
        create_project input t env = create_project (pyStrip input) t env)
  ∧ create_project "  demo  " ProjectType.Basic happyEnv
      = some (run_setup "demo" ProjectType.Basic happyEnv)
  ∧ Mutation.mkdir (project_dir false "demo")
      ∈ (run_setup "demo" ProjectType.Basic happyEnv).mutations
  ∧ (fileContent (run_setup "demo" ProjectType.Basic happyEnv).mutations "README.md").map
      (fun r => "# demo\n".data.isPrefixOf r.data) = some true
  ∧ (fileContent (run_setup "demo" ProjectType.Basic happyEnv).mutations "README.md").map
      (fun r => strContains r "docker build -t demo .") = some true := by
  refine ⟨fun input t env => ?_, by decide, by decide, by decide, by decide⟩
  unfold create_project
  rw [pyStrip_idem]

end ProjectSetup
